import Mathlib

/-!
Shallow embedding of the gorm statement-construction core (killlowkey/gorm).

The Go sources under scrutiny are `gorm.go`, `callbacks/{callbacks,callmethod,
query,transaction}.go` and `clause/{clause,joins,select,values}.go`.  Pure
functions are translated into Lean functions; the mutable `*DB` / `*Statement`
values become explicit records threaded through the functions.  Driver values,
connection pools, contexts and loggers are opaque identifiers.  A few leaf
helpers live in files of the repository that are not part of the excerpt
(`statement.go`, `finisher_api.go`, `utils`, per-driver `Explain`); those are
modelled from the specification and say so in their doc comments.
-/

namespace GormModel

/-- Driver-level parameter values (the `interface{}` values that reach `Vars`). -/
inductive Val where
  | int (n : Int)
  | str (s : String)
  | bool (b : Bool)
  deriving DecidableEq

/-- Go `error` values as produced by this library: a leaf error or the chained
error built by `fmt.Errorf("%v; %w", old, recent)` in `DB.AddError`
(src/gorm.go line 381): the old error is rendered into the message first and
the most recent error is the `%w`-wrapped (unwrappable) component. -/
inductive GoError where
  | base (code : Nat)
  | chain (old recent : GoError)
  deriving DecidableEq

/-- The error message, mirroring `fmt.Errorf("%v; %w", old, recent)`. -/
def GoError.msg : GoError → String
  | .base code => "E" ++ toString code
  | .chain old recent => old.msg ++ "; " ++ recent.msg

/-- `errors.Unwrap` on the chained error: the `%w` verb wraps the most recent
error, so unwrapping yields it. -/
def GoError.unwrap : GoError → Option GoError
  | .base _ => none
  | .chain _ recent => some recent

/-- `clause.Column` (src/clause/clause.go lines 84-89). -/
structure Column where
  table : String := ""
  name : String := ""
  aliasName : String := ""
  raw : Bool := false
  deriving DecidableEq

/-- `clause.Table` (src/clause/clause.go lines 92-96). -/
structure TableRef where
  name : String := ""
  aliasName : String := ""
  raw : Bool := false
  deriving DecidableEq

/-- The `~~~ct~~~` current-table sentinel (src/clause/clause.go line 74). -/
def currentTable : String := "~~~ct~~~"

/-- The value slot of a `clause.Eq` (`Value interface{}`): at the use sites in
src/callbacks/query.go it holds either a driver value (primary-key lookup),
another column (join reference) or the relationship's literal `PrimaryValue`. -/
inductive EqVal where
  | col (c : Column)
  | val (v : Val)
  | str (s : String)
  deriving DecidableEq

/-- `clause.Expression` values that the claims touch.  `selectExpr` is the
`clause.Select` value stored as its own expression by `Select.MergeClause`,
`whereExprs` is a `clause.Where`, `valuesExpr` a `clause.Values`. -/
inductive Expression where
  | expr (sql : String) (vars : List Val)
  | namedExpr (sql : String) (vars : List Val)
  | eq (column : Column) (value : EqVal)
  | whereExprs (exprs : List Expression)
  | selectExpr (distinct : Bool) (columns : List Column)
  | valuesExpr (columns : List Column) (values : List (List Val))

/-- `clause.Clause` (src/clause/clause.go lines 33-40); the before/after
decoration expressions and the custom builder are not exercised by the claims
and stay at their zero values, so only the name and expression are kept. -/
structure Clause where
  name : String := ""
  expression : Option Expression := none

/-- Connection pools: a raw pool, a driver transaction, or the
prepared-statement wrapper installed by `Session` when `PrepareStmt` is set. -/
inductive Pool where
  | raw (id : Nat)
  | tx (id : Nat)
  | prepared (inner : Pool)
  deriving DecidableEq

/-- Whether the pool is a `Tx` (the `case Tx:` type switch of
src/gorm.go line 273). -/
def Pool.isTx : Pool → Bool
  | .tx _ => true
  | _ => false

/-- The per-model schema as far as the query builder reads it: the identity of
the record type (`Schema.ModelType`, an opaque type id here) and the primary
fields.  For each primary field we record its DB name together with the result
of `Field.ValueOf` on the single destination record: the value and the
`isZero` flag. -/
structure PrimaryField where
  dbName : String
  value : Val
  isZero : Bool
  deriving DecidableEq

structure Schema where
  modelType : Nat
  primaryFields : List PrimaryField := []
  deriving DecidableEq

/-- The kind of `Statement.ReflectValue` (reflect.Kind). -/
inductive ReflectKind where
  | struct
  | slice
  | other
  deriving DecidableEq

/-- The build context `gorm.Statement` (statement.go, outside the excerpt);
the fields appearing in src/gorm.go and src/callbacks/query.go are kept:
connection pool, context, clause map, bind vars, hook skipping, the target
table, the parsed schema and the reflective view of the destination (kind and
type id).  Contexts are opaque ids. -/
structure Statement where
  connPool : Pool := .raw 0
  context : Nat := 0
  clauses : List (String × Clause) := []
  vars : List Val := []
  skipHooks : Bool := false
  table : String := ""
  schema : Option Schema := none
  reflectKind : ReflectKind := .other
  reflectType : Nat := 0

/-- Modelled from the spec: `Statement.clone` (statement.go) is not under
src/.  Spec §4.5 (clone-state 2) says the next operation "clones the current
statement", a snapshot of the build context, so the clone carries every field
of the source statement. -/
def Statement.clone (s : Statement) : Statement :=
  { connPool := s.connPool, context := s.context, clauses := s.clauses,
    vars := s.vars, skipHooks := s.skipHooks, table := s.table,
    schema := s.schema, reflectKind := s.reflectKind,
    reflectType := s.reflectType }

/-- `gorm.Config` (src/gorm.go lines 20-64), restricted to the fields the
claims read; loggers and clocks are opaque ids. -/
structure Config where
  skipDefaultTransaction : Bool := false
  fullSaveAssociations : Bool := false
  dryRun : Bool := false
  prepareStmt : Bool := false
  disableNestedTransaction : Bool := false
  allowGlobalUpdate : Bool := false
  queryFields : Bool := false
  createBatchSize : Int := 0
  translateError : Bool := false
  logger : Option Nat := none
  nowFunc : Option Nat := none
  connPool : Pool := .raw 0

/-- `gorm.DB` (src/gorm.go lines 93-99).  The Go `clone` field is an `int`. -/
structure DB where
  config : Config := {}
  error : Option GoError := none
  rowsAffected : Int := 0
  statement : Statement := {}
  clone : Int := 0

/-- `gorm.Session` (src/gorm.go lines 102-117). -/
structure SessionCfg where
  dryRun : Bool := false
  prepareStmt : Bool := false
  newDB : Bool := false
  initialized : Bool := false
  skipHooks : Bool := false
  skipDefaultTransaction : Bool := false
  disableNestedTransaction : Bool := false
  allowGlobalUpdate : Bool := false
  fullSaveAssociations : Bool := false
  queryFields : Bool := false
  context : Option Nat := none
  logger : Option Nat := none
  nowFunc : Option Nat := none
  createBatchSize : Int := 0

/-- `DB.getInstance` (src/gorm.go lines 408-431): with `clone == 0` the DB is
returned unchanged to be mutated in place; with `clone == 1` the new DB
carries a brand-new statement (fresh clause map and vars, inheriting only the
pool and context); otherwise the new DB carries a clone of the current
statement.  The new DB always has `clone = 0`, zero `RowsAffected`, and
inherits config and error. -/
def DB.getInstance (db : DB) : DB :=
  if 0 < db.clone then
    if db.clone = 1 then
      { config := db.config, error := db.error,
        statement := { connPool := db.statement.connPool,
                       context := db.statement.context,
                       clauses := [], vars := [] } }
    else
      { config := db.config, error := db.error,
        statement := db.statement.clone }
  else
    db

/-- `DB.Session` (src/gorm.go lines 225-325), translated statement by
statement.  The prepared-statement branch wraps the pool (the process-wide
stmt-cache bookkeeping is identity on this pool model), and the optional
fields override the inherited config exactly when set in the session value.
The final `if config.Initialized { tx = tx.getInstance() }` is kept. -/
def DB.session (db : DB) (config : SessionCfg) : DB :=
  let tx : DB := { config := db.config, statement := db.statement,
                   error := db.error, clone := 1 }
  let tx := if 0 < config.createBatchSize then
      { tx with config := { tx.config with createBatchSize := config.createBatchSize } }
    else tx
  let tx := if config.skipDefaultTransaction then
      { tx with config := { tx.config with skipDefaultTransaction := true } }
    else tx
  let tx := if config.allowGlobalUpdate then
      { tx with config := { tx.config with allowGlobalUpdate := true } }
    else tx
  let tx := if config.fullSaveAssociations then
      { tx with config := { tx.config with fullSaveAssociations := true } }
    else tx
  let tx := if config.context.isSome || config.prepareStmt || config.skipHooks then
      { tx with statement := tx.statement.clone }
    else tx
  let tx := if config.context.isSome then
      { tx with statement := { tx.statement with context := config.context.getD tx.statement.context } }
    else tx
  let tx := if config.prepareStmt then
      let newPool := if tx.statement.connPool.isTx then Pool.prepared tx.statement.connPool
        else Pool.prepared db.config.connPool
      { tx with statement := { tx.statement with connPool := newPool },
                config := { tx.config with connPool := newPool, prepareStmt := true } }
    else tx
  let tx := if config.skipHooks then
      { tx with statement := { tx.statement with skipHooks := true } }
    else tx
  let tx := if config.disableNestedTransaction then
      { tx with config := { tx.config with disableNestedTransaction := true } }
    else tx
  let tx := if !config.newDB then { tx with clone := 2 } else tx
  let tx := if config.dryRun then
      { tx with config := { tx.config with dryRun := true } }
    else tx
  let tx := if config.queryFields then
      { tx with config := { tx.config with queryFields := true } }
    else tx
  let tx := if config.logger.isSome then
      { tx with config := { tx.config with logger := config.logger } }
    else tx
  let tx := if config.nowFunc.isSome then
      { tx with config := { tx.config with nowFunc := config.nowFunc } }
    else tx
  if config.initialized then tx.getInstance else tx

end GormModel

namespace GormModel

/-- A sample in-progress DB: clone-state 2, a non-trivial statement. -/
def sampleStatement : Statement :=
  { connPool := .raw 3, context := 7,
    clauses := [("WHERE", { name := "WHERE" })], vars := [.int 5],
    table := "users" }

def sampleDB : DB := { statement := sampleStatement, clone := 2 }

/-- The dialect surface the builder needs (spec §4.8): how a column value is
quoted and the bind-variable placeholder text.  `quoteCol` abstracts
`Statement.QuoteTo` composed with `Dialector.QuoteTo`. -/
structure Dialect where
  quoteCol : Column → String
  placeholder : String

/-- The growable SQL buffer plus the positional bind vars of the statement
(`Statement.SQL` and `Statement.Vars`), the state a `clause.Builder` writes
into. -/
structure BuilderState where
  sql : String := ""
  vars : List Val := []
  deriving DecidableEq

def writeString (s : String) (b : BuilderState) : BuilderState :=
  { b with sql := b.sql ++ s }

def writeByte (c : Char) (b : BuilderState) : BuilderState :=
  writeString (String.singleton c) b

/-- Modelled from the spec: `Statement.WriteQuoted` (statement.go) is not
under src/; §4.2: quote an identifier or a column/table value per dialect
rules. -/
def writeQuoted (d : Dialect) (c : Column) (b : BuilderState) : BuilderState :=
  { b with sql := b.sql ++ d.quoteCol c }

/-- Modelled from the spec: `Statement.AddVar` (statement.go) is not under
src/; §4.2: "append each value to `vars` and render one placeholder per value
via the dialect"; successive placeholders of one call are comma-separated
(the tuple rendering of spec §8, scenario 2). -/
def addVarAux (d : Dialect) : Bool → List Val → BuilderState → BuilderState
  | _, [], b => b
  | isFirst, v :: vs, b =>
      let b := if isFirst then b else writeByte ',' b
      addVarAux d false vs (writeString d.placeholder { b with vars := b.vars ++ [v] })

def addVar (d : Dialect) (vals : List Val) (b : BuilderState) : BuilderState :=
  addVarAux d true vals b

/-- `clause.Values` (src/clause/values.go lines 3-6). -/
structure Values where
  columns : List Column := []
  values : List (List Val) := []

/-- The column-list loop shared by `Values.Build` (src/clause/values.go
lines 18-23) and `Select.Build` (src/clause/select.go lines 21-26): a comma
before every element but the first, then the quoted column. -/
def writeColumns (d : Dialect) : Bool → List Column → BuilderState → BuilderState
  | _, [], b => b
  | isFirst, c :: cs, b =>
      writeColumns d false cs (writeQuoted d c (if isFirst then b else writeByte ',' b))

/-- The per-row tuple loop of `Values.Build` (src/clause/values.go
lines 30-39): a comma between tuples, each tuple `(` values `)` via `AddVar`. -/
def writeTuples (d : Dialect) : Bool → List (List Val) → BuilderState → BuilderState
  | _, [], b => b
  | isFirst, row :: rows, b =>
      let b := if isFirst then b else writeByte ',' b
      writeTuples d false rows (writeByte ')' (addVar d row (writeByte '(' b)))

/-- `Values.Build` (src/clause/values.go lines 14-43). -/
def Values.build (d : Dialect) (v : Values) (b : BuilderState) : BuilderState :=
  if 0 < v.columns.length then
    writeTuples d true v.values
      (writeString " VALUES " (writeByte ')' (writeColumns d true v.columns (writeByte '(' b))))
  else
    writeString "DEFAULT VALUES" b

/-- `clause.Select` (src/clause/select.go lines 5-9). -/
structure Select where
  distinct : Bool := false
  columns : List Column := []
  expression : Option Expression := none

/-- The `clause.Select` value seen as the expression stored by the final
branch of `MergeClause` (`clause.Expression = s`); that branch runs only when
the select's own expression is nil, so the constructor carries the distinct
flag and the column list. -/
def Select.asExpression (s : Select) : Expression :=
  .selectExpr s.distinct s.columns

/-- `Select.Build` (src/clause/select.go lines 15-31). -/
def Select.build (d : Dialect) (s : Select) (b : BuilderState) : BuilderState :=
  if 0 < s.columns.length then
    writeColumns d true s.columns (if s.distinct then writeString "DISTINCT " b else b)
  else
    writeByte '*' b

/-- `Select.MergeClause` (src/clause/select.go lines 33-47). -/
def Select.mergeClause (s : Select) (c : Clause) : Clause :=
  match s.expression with
  | some e =>
      if s.distinct then
        match e with
        | .expr sql vars => { c with expression := some (.expr ("DISTINCT " ++ sql) vars) }
        | _ => { c with expression := some e }
      else { c with expression := some e }
  | none => { c with expression := some s.asExpression }

/-- Concatenation of a list of strings. -/
def strConcat : List String → String
  | [] => ""
  | s :: rest => s ++ strConcat rest

/-- Separator-joined rendering of a list of strings. -/
def sepJoin (sep : String) : List String → String
  | [] => ""
  | s :: rest => s ++ strConcat (rest.map (fun t => sep ++ t))

/-- A concrete double-quoting dialect with `?` placeholders, for witnesses. -/
def sqlDialect : Dialect :=
  { quoteCol := fun c =>
      let base := "\"" ++ c.name ++ "\""
      let base := if c.table = "" then base else "\"" ++ c.table ++ "\"." ++ base
      if c.aliasName = "" then base else base ++ " AS \"" ++ c.aliasName ++ "\""
    placeholder := "?" }

/-- The text of one VALUES tuple: `(` one placeholder per value, comma
separated `)`. -/
def tupleStr (d : Dialect) (row : List Val) : String :=
  "(" ++ sepJoin "," (row.map (fun _ => d.placeholder)) ++ ")"

/-- A concrete VALUES clause for witnesses: two columns, two rows. -/
def valuesSample : Values :=
  { columns := [{ name := "name" }, { name := "age" }],
    values := [[.str "ada", .int 1], [.str "bob", .int 2]] }

/-- A concrete merged SELECT carrying a raw expression, for witnesses. -/
def selectExprSample : Select :=
  { distinct := true, expression := some (.expr "count(1)" []) }

/-- A concrete two-column DISTINCT SELECT, for witnesses. -/
def selectColsSample : Select :=
  { distinct := true, columns := [{ name := "id" }, { name := "name" }] }

/-- `DB.AddError` (src/gorm.go lines 370-385).  `translate` stands for the
dialector's optional `ErrorTranslator.Translate`, applied only when
`TranslateError` is configured.  The Go method mutates `db.Error` and returns
it, so the embedding returns the updated DB paired with the returned error. -/
def DB.addError (translate : GoError → GoError) (db : DB) (err : Option GoError) :
    DB × Option GoError :=
  match err with
  | none => (db, db.error)
  | some e =>
      let e := if db.config.translateError then translate e else e
      let db :=
        match db.error with
        | none => { db with error := some e }
        | some old => { db with error := some (.chain old e) }
      (db, db.error)

/-- The transaction-closing actions issued through the driver. -/
inductive TxAction where
  | commitTx
  | rollbackTx
  deriving DecidableEq

/-- The state the transaction-bracket handlers read and write:
`Config.SkipDefaultTransaction`, the DB error, the
`gorm:started_transaction` instance marker set by `BeginTransaction`
(src/callbacks/transaction.go line 14), the statement's pool, the config's
pool (`db.ConnPool`), and a log of closing actions. -/
structure TxDB where
  skipDefaultTransaction : Bool := false
  error : Option GoError := none
  startedTransaction : Bool := false
  stmtConnPool : Pool := .raw 0
  connPool : Pool := .raw 0
  txLog : List TxAction := []
  deriving DecidableEq

/-- Modelled from the spec: `DB.Commit` (finisher_api.go) is not under src/;
§4.5: it closes the driver transaction.  The closing action is recorded on
the log; the pool restore is performed by the caller
(src/callbacks/transaction.go line 35). -/
def TxDB.commit (db : TxDB) : TxDB := { db with txLog := db.txLog ++ [.commitTx] }

/-- Modelled from the spec: `DB.Rollback` (finisher_api.go) is not under
src/; §4.5: it closes the driver transaction by rolling it back. -/
def TxDB.rollback (db : TxDB) : TxDB := { db with txLog := db.txLog ++ [.rollbackTx] }

/-- `CommitOrRollbackTransaction` (src/callbacks/transaction.go lines 23-38). -/
def commitOrRollbackTransaction (db : TxDB) : TxDB :=
  if !db.skipDefaultTransaction then
    if db.startedTransaction then
      let db := if db.error.isSome then db.rollback else db.commit
      { db with stmtConnPool := db.connPool }
    else db
  else db

/-- The hook-capability flags of the schema as `AfterQuery` reads them. -/
structure SchemaHooks where
  afterFind : Bool := false
  deriving DecidableEq

/-- The slice of DB state read by `AfterQuery` (src/callbacks/query.go
line 333), plus a flag recording whether the `AfterFind` hook ran. -/
structure QueryDB where
  error : Option GoError := none
  schema : Option SchemaHooks := none
  skipHooks : Bool := false
  rowsAffected : Int := 0
  afterFindCalled : Bool := false
  deriving DecidableEq

/-- The `Schema.AfterFind` capability flag, false when no schema is parsed. -/
def schemaAfterFind : Option SchemaHooks → Bool
  | some s => s.afterFind
  | none => false

/-- `AfterQuery` (src/callbacks/query.go lines 332-342): when no error is
set, a schema is present, hooks are not skipped, the schema declares
`AfterFind` and at least one row was affected, `callMethod` invokes the
record's `AfterFind` hook, whose resulting error (`hookErr`) reaches
`db.AddError`; otherwise nothing happens. -/
def afterQuery (hookErr : Option GoError) (db : QueryDB) : QueryDB :=
  if db.error = none ∧ db.schema.isSome = true ∧ db.skipHooks = false
      ∧ schemaAfterFind db.schema = true ∧ 0 < db.rowsAffected then
    { db with afterFindCalled := true, error := hookErr }
  else db

/-- A transaction-bracketed DB that failed mid-operation, for witnesses. -/
def failedTxDB : TxDB :=
  { startedTransaction := true, error := some (.base 9),
    stmtConnPool := .tx 1, connPool := .raw 0 }

/-- A transaction-bracketed DB with no error, for witnesses. -/
def happyTxDB : TxDB :=
  { startedTransaction := true, stmtConnPool := .tx 1, connPool := .raw 0 }

/-- A post-query DB whose schema declares `AfterFind`, for witnesses. -/
def foundQueryDB : QueryDB :=
  { schema := some { afterFind := true }, rowsAffected := 3 }

/-- Assoc-list lookup for the `Statement.Clauses` map. -/
def lookupClause : List (String × Clause) → String → Option Clause
  | [], _ => none
  | (k, c) :: rest, name => if k = name then some c else lookupClause rest name

/-- Assoc-list update-or-insert for the `Statement.Clauses` map. -/
def setClause : List (String × Clause) → String → Clause → List (String × Clause)
  | [], name, c => [(name, c)]
  | (k, c0) :: rest, name, c =>
      if k = name then (k, c) :: rest else (k, c0) :: setClause rest name c

/-- A `clause.Interface` value as `Statement.AddClause` consumes it: its
name, the expression installed when the map has no entry of that name, and
its `MergeClause` behaviour. -/
structure ClauseInterface where
  name : String
  asExpression : Expression
  mergeClause : Clause → Clause

/-- Modelled from the spec: `Statement.AddClause` (statement.go) is not under
src/; §4.3: "add-clause(c): if a clause with that name exists, call
c.merge(existing); otherwise install it." -/
def Statement.addClause (s : Statement) (ci : ClauseInterface) : Statement :=
  match lookupClause s.clauses ci.name with
  | some c => { s with clauses := setClause s.clauses ci.name (ci.mergeClause c) }
  | none =>
      { s with clauses :=
          setClause s.clauses ci.name { name := ci.name, expression := some ci.asExpression } }

/-- Modelled from the spec: `clause.Where.MergeClause` (clause/where.go) is
not under src/; §4.1: "WHERE: conjunctive merge — new conjuncts are
AND-appended to the existing clause." -/
def whereInterface (conds : List Expression) : ClauseInterface :=
  { name := "WHERE",
    asExpression := .whereExprs conds,
    mergeClause := fun c =>
      match c.expression with
      | some (.whereExprs old) => { c with expression := some (.whereExprs (old ++ conds)) }
      | _ => { c with expression := some (.whereExprs conds) } }

/-- The primary-key shortcut of `BuildQuerySQL` (src/callbacks/query.go
lines 58-70): when the destination is a single struct of the model type, an
equality conjunct per non-zero primary field is collected in field order and,
when at least one was collected, added as a WHERE clause.  (With no parsed
schema the Go guard cannot hold for well-formed statements; the embedding
leaves the statement unchanged.) -/
def buildQueryPrimaryWhere (db : DB) : DB :=
  match db.statement.schema with
  | none => db
  | some sch =>
      if db.statement.reflectKind = .struct ∧ db.statement.reflectType = sch.modelType then
        let conds := sch.primaryFields.foldl
          (fun conds f =>
            if f.isZero then conds
            else conds
              ++ [Expression.eq { table := db.statement.table, name := f.dbName } (.val f.value)])
          []
        if 0 < conds.length then
          { db with statement := db.statement.addClause (whereInterface conds) }
        else db
      else db

/-- A DB about to run a single-record query: parsed schema with two primary
fields, of which only `id` is non-zero in the destination. -/
def primaryQueryDB : DB :=
  { statement :=
      { table := "users",
        schema := some
          { modelType := 1,
            primaryFields :=
              [{ dbName := "id", value := .int 7, isZero := false },
               { dbName := "tenant", value := .int 0, isZero := true }] },
        reflectKind := .struct,
        reflectType := 1 } }

/-- `schema.Relationship.Reference` as `genJoinClause` reads it
(src/callbacks/query.go lines 195-213). -/
structure Reference where
  ownPrimaryKey : Bool := false
  primaryKeyDBName : String := ""
  foreignKeyDBName : String := ""
  primaryValue : String := ""
  deriving DecidableEq

/-- The slice of `schema.Relationship` the join generator reads: the
relation's name, the related schema's table, and the reference pairs. -/
structure Relationship where
  name : String
  fieldSchemaTable : String := ""
  references : List Reference := []
  deriving DecidableEq

/-- Modelled from the spec: `utils.NestedRelationName` is not under src/; per
the glossary a nested alias has the form `Parent__Child`. -/
def nestedRelationName (parent child : String) : String := parent ++ "__" ++ child

/-- The join value placed into the FROM clause (`clause.Join`,
src/clause/joins.go lines 15-21, for a relationship join: type, aliased
table, ON conjuncts). -/
structure JoinClause where
  joinType : String := ""
  table : TableRef := {}
  onExprs : List Expression := []

/-- `genJoinClause` (src/callbacks/query.go lines 172-250) restricted to the
join value it returns: the table alias is the relation name, nested under the
parent table name unless the parent is the current table (lines 173-176); the
ON conjuncts come from walking the reference pairs (lines 194-214).  Its
other effects — appending the relation's columns to the SELECT list and the
extra ON conditions from the related schema's query clauses — add no joins
and are outside this model. -/
def genJoinClause (joinType : String) (parentTableName : String) (rel : Relationship) :
    JoinClause :=
  let tableAliasName :=
    if parentTableName ≠ currentTable then nestedRelationName parentTableName rel.name
    else rel.name
  let exprs := rel.references.map (fun ref =>
    if ref.ownPrimaryKey then
      Expression.eq { table := parentTableName, name := ref.primaryKeyDBName }
        (.col { table := tableAliasName, name := ref.foreignKeyDBName })
    else if ref.primaryValue = "" then
      Expression.eq { table := parentTableName, name := ref.foreignKeyDBName }
        (.col { table := tableAliasName, name := ref.primaryKeyDBName })
    else
      Expression.eq { table := tableAliasName, name := ref.foreignKeyDBName }
        (.str ref.primaryValue))
  { joinType := joinType,
    table := { name := rel.fieldSchemaTable, aliasName := tableAliasName },
    onExprs := exprs }

/-- The parent-table update ending each step of the relation loop
(src/callbacks/query.go lines 261-265). -/
def nextParentTableName (parentTableName : String) (rel : Relationship) : String :=
  if parentTableName ≠ currentTable then nestedRelationName parentTableName rel.name
  else rel.name

/-- The relation loop of `BuildQuerySQL` (src/callbacks/query.go
lines 252-266): walk a resolved relation path; a step whose nested alias is
already in `specifiedRelationsName` (the set) is skipped, otherwise one join
is appended and the alias recorded. -/
def processRelations (joinType : String) :
    List Relationship → String → Finset String → List JoinClause →
      Finset String × List JoinClause
  | [], _, seen, joins => (seen, joins)
  | rel :: rels, parentTableName, seen, joins =>
      let nestedAlias := nestedRelationName parentTableName rel.name
      let next :=
        if nestedAlias ∈ seen then (seen, joins)
        else (insert nestedAlias seen, joins ++ [genJoinClause joinType parentTableName rel])
      processRelations joinType rels (nextParentTableName parentTableName rel) next.1 next.2

/-- The loop over the statement's resolved join paths (src/callbacks/query.go
lines 137-138 with 252-266): each path starts from the current table and
shares the `specifiedRelationsName` set and the FROM clause's join list. -/
def processJoinPathsAux :
    List (String × List Relationship) → Finset String → List JoinClause →
      Finset String × List JoinClause
  | [], seen, joins => (seen, joins)
  | (joinType, rels) :: paths, seen, joins =>
      let next := processRelations joinType rels currentTable seen joins
      processJoinPathsAux paths next.1 next.2

def processJoinPaths (paths : List (String × List Relationship)) :
    Finset String × List JoinClause :=
  processJoinPathsAux paths ∅ []

/-- Sample relations: a `Manager` relation and its nested `Company`. -/
def relManager : Relationship := { name := "Manager", fieldSchemaTable := "managers" }

def relCompany : Relationship := { name := "Company", fieldSchemaTable := "companies" }

/-- Joining `Manager` and then the nested path `Manager.Company`: the second
path revisits the `Manager` alias. -/
def joinPathsSample : List (String × List Relationship) :=
  [("LEFT", [relManager]), ("LEFT", [relManager, relCompany])]

/-- Literal rendering of a driver value inside an explained SQL string. -/
def renderLiteral : Val → String
  | .int n => toString n
  | .str s => "'" ++ s ++ "'"
  | .bool b => if b then "true" else "false"

/-- Modelled from the spec: the dialector's `Explain` (per-driver code) is
not under src/; §4.8: "explain(sql, vars…) → string — render a debug SQL
with literals in place of placeholders".  Each `?` placeholder is replaced,
left to right, by the literal rendering of the corresponding var. -/
def explainChars : List Char → List Val → String
  | [], _ => ""
  | c :: cs, vars =>
      if c = '?' then
        match vars with
        | v :: rest => renderLiteral v ++ explainChars cs rest
        | [] => String.singleton c ++ explainChars cs []
      else String.singleton c ++ explainChars cs vars

def explain (sql : String) (vars : List Val) : String := explainChars sql.data vars

/-- The statement a finisher run inside `ToSQL`'s query function leaves on
the session: the built SQL text and the positional vars (`Statement.SQL`,
`Statement.Vars`).  `BuildQuerySQL` runs identically in both modes, so the
same built statement feeds both the dry-run and the executing pipeline. -/
structure BuiltStmt where
  sql : String := ""
  vars : List Val := []
  deriving DecidableEq

/-- The execution step of the query handler (src/callbacks/query.go
lines 20-25): in dry-run mode nothing is sent; otherwise
`Statement.SQL.String()` and `Statement.Vars` go to
`ConnPool.QueryContext`. -/
def querySend (dryRun : Bool) (stmt : BuiltStmt) : Option (String × List Val) :=
  if dryRun then none else some (stmt.sql, stmt.vars)

/-- The session configuration `ToSQL` opens (src/gorm.go line 511). -/
def toSQLSession : SessionCfg := { dryRun := true, skipDefaultTransaction := true }

/-- `DB.ToSQL` (src/gorm.go lines 510-515): run the query function on a
dry-run session and return `Dialector.Explain` of the statement's SQL text
and vars. -/
def toSQL (stmt : BuiltStmt) : String := explain stmt.sql stmt.vars

/-- A built single-row lookup with one bind variable, for C8. -/
def whereIdStmt : BuiltStmt :=
  { sql := "SELECT * FROM users WHERE id = ?", vars := [.int 1] }

/-! ### Theorems -/

theorem session_clone_eq (db : DB) (cfg : SessionCfg) :
    (db.session cfg).clone = if cfg.initialized then 0 else if cfg.newDB then 1 else 2 := by
  cases hn : cfg.newDB <;> cases hi : cfg.initialized <;>
    simp [DB.session, DB.getInstance, hn, hi, apply_ite DB.clone, Statement.clone]

/-- C1 (counterexample): the claim says every DB returned by `Session` has
clone-state at least 1, but `Session` with `Initialized: true` ends in
`tx.getInstance()` (src/gorm.go lines 320-322), which returns a DB whose
`clone` field is left at its zero value 0. -/
theorem C1_session_initialized_clone_zero :
    (DB.session {} { initialized := true }).clone = 0
    ∧ ¬ 1 ≤ (DB.session {} { initialized := true }).clone := by
  constructor
  · simpa using session_clone_eq {} { initialized := true }
  · intro h
    rw [session_clone_eq] at h
    simp at h

/-- C1 (amended): a DB returned by `Session` with `Initialized` unset has
clone-state 1 when `NewDB` is set and 2 otherwise (hence at least 1); with
`Initialized` set, `Session` returns `getInstance()` of that DB, whose
clone-state is 0.  `getInstance` obeys the clone-state machine: clone-state 0
returns the same DB to be mutated in place; clone-state 1 returns a DB
carrying a brand-new empty statement (fresh clause map and vars over the
inherited pool and context); clone-state 2 returns a DB whose statement is a
clone of the current statement — in both cases with config and error
inherited and clone-state reset to 0. -/
theorem C1_session_getInstance_clone_machine (db : DB) (cfg : SessionCfg) :
    (cfg.initialized = false →
       (cfg.newDB = true → (db.session cfg).clone = 1)
       ∧ (cfg.newDB = false → (db.session cfg).clone = 2)
       ∧ 1 ≤ (db.session cfg).clone)
    ∧ (cfg.initialized = true → (db.session cfg).clone = 0)
    ∧ (db.clone = 0 → db.getInstance = db)
    ∧ (db.clone = 1 →
         db.getInstance.statement
           = { connPool := db.statement.connPool, context := db.statement.context,
               clauses := [], vars := [] }
         ∧ db.getInstance.clone = 0
         ∧ db.getInstance.config = db.config
         ∧ db.getInstance.error = db.error)
    ∧ (db.clone = 2 →
         db.getInstance.statement = db.statement.clone
         ∧ db.getInstance.clone = 0
         ∧ db.getInstance.config = db.config
         ∧ db.getInstance.error = db.error) := by
  refine ⟨fun hi => ?_, fun hi => ?_, fun h0 => ?_, fun h1 => ?_, fun h2 => ?_⟩
  · cases hn : cfg.newDB <;> simp [session_clone_eq, hi, hn]
  · simp [session_clone_eq, hi]
  · simp [DB.getInstance, h0]
  · simp [DB.getInstance, h1]
  · simp [DB.getInstance, h2]

/-- C1 (witness): the clone-state machine at concrete inputs. -/
theorem C1_session_getInstance_clone_machine_witness :
    (sampleDB.session {}).clone = 2
    ∧ (sampleDB.session { newDB := true }).clone = 1
    ∧ sampleDB.getInstance.statement = sampleStatement.clone :=
  ⟨((C1_session_getInstance_clone_machine sampleDB {}).1 rfl).2.1 rfl,
   ((C1_session_getInstance_clone_machine sampleDB { newDB := true }).1 rfl).1 rfl,
   ((C1_session_getInstance_clone_machine sampleDB {}).2.2.2.2 rfl).1⟩

end GormModel

namespace GormModel

theorem singleton_comma : String.singleton ',' = "," := rfl

theorem singleton_star : String.singleton '*' = "*" := rfl

theorem singleton_lparen : String.singleton '(' = "(" := rfl

theorem singleton_rparen : String.singleton ')' = ")" := rfl

theorem fold_comma_lparen (x : String) : "," ++ ("(" ++ x) = ",(" ++ x := by
  rw [← String.append_assoc]; rfl

theorem fold_rparen_values (x : String) : ")" ++ (" VALUES " ++ x) = ") VALUES " ++ x := by
  rw [← String.append_assoc]; rfl

theorem sepJoin_nil (sep : String) : sepJoin sep [] = "" := rfl

theorem sepJoin_cons (sep s : String) (rest : List String) :
    sepJoin sep (s :: rest) = s ++ strConcat (rest.map (fun t => sep ++ t)) := rfl

theorem writeColumns_false (d : Dialect) (cs : List Column) (b : BuilderState) :
    writeColumns d false cs b
      = { sql := b.sql ++ strConcat (cs.map (fun c => "," ++ d.quoteCol c)),
          vars := b.vars } := by
  induction cs generalizing b with
  | nil => simp [writeColumns, strConcat]
  | cons c cs ih =>
      simp [writeColumns, ih, writeByte, writeString, writeQuoted, List.map_cons,
        strConcat, singleton_comma, String.append_assoc]

theorem writeColumns_true (d : Dialect) (cs : List Column) (b : BuilderState) :
    writeColumns d true cs b
      = { sql := b.sql ++ sepJoin "," (cs.map d.quoteCol), vars := b.vars } := by
  cases cs with
  | nil => simp [writeColumns, sepJoin_nil]
  | cons c cs =>
      simp [writeColumns, writeQuoted, writeColumns_false, List.map_cons,
        sepJoin_cons, List.map_map, Function.comp_def, String.append_assoc]

theorem addVarAux_false (d : Dialect) (vs : List Val) (b : BuilderState) :
    addVarAux d false vs b
      = { sql := b.sql ++ strConcat (vs.map (fun _ => "," ++ d.placeholder)),
          vars := b.vars ++ vs } := by
  induction vs generalizing b with
  | nil => simp [addVarAux, strConcat]
  | cons v vs ih =>
      simp [addVarAux, ih, writeByte, writeString, List.map_cons, strConcat,
        singleton_comma, String.append_assoc, List.append_assoc, List.cons_append,
        List.nil_append, List.singleton_append]

theorem addVar_eq (d : Dialect) (vs : List Val) (b : BuilderState) :
    addVar d vs b
      = { sql := b.sql ++ sepJoin "," (vs.map (fun _ => d.placeholder)),
          vars := b.vars ++ vs } := by
  cases vs with
  | nil => simp [addVar, addVarAux, sepJoin_nil]
  | cons v vs =>
      simp [addVar, addVarAux, writeString, addVarAux_false, List.map_cons,
        sepJoin_cons, List.map_map, Function.comp_def, String.append_assoc,
        List.append_assoc, List.cons_append, List.nil_append, List.singleton_append,
        if_true]

theorem writeTuples_false (d : Dialect) (rows : List (List Val)) (b : BuilderState) :
    writeTuples d false rows b
      = { sql := b.sql ++ strConcat (rows.map (fun r => "," ++ tupleStr d r)),
          vars := b.vars ++ rows.flatten } := by
  induction rows generalizing b with
  | nil => simp [writeTuples, strConcat]
  | cons r rows ih =>
      simp [writeTuples, ih, writeByte, writeString, addVar_eq, List.map_cons,
        strConcat, tupleStr, singleton_comma, singleton_lparen, singleton_rparen,
        String.append_assoc, fold_comma_lparen, List.flatten_cons, List.append_assoc]

theorem writeTuples_true (d : Dialect) (rows : List (List Val)) (b : BuilderState) :
    writeTuples d true rows b
      = { sql := b.sql ++ sepJoin "," (rows.map (tupleStr d)),
          vars := b.vars ++ rows.flatten } := by
  cases rows with
  | nil => simp [writeTuples, sepJoin_nil]
  | cons r rows =>
      simp [writeTuples, writeByte, writeString, addVar_eq, writeTuples_false,
        List.map_cons, sepJoin_cons, List.map_map, Function.comp_def, tupleStr,
        singleton_lparen, singleton_rparen, String.append_assoc, fold_comma_lparen,
        List.flatten_cons, List.append_assoc]

end GormModel

namespace GormModel

/-- C3: for a Values clause with a non-empty Columns list, `Build` emits the
parenthesized comma-separated quoted columns, the text `" VALUES "`, and one
parenthesized placeholder tuple per entry of `Values`, appending every tuple's
values in order to the positional bind vars; with an empty Columns list it
emits exactly `"DEFAULT VALUES"` and no vars. -/
theorem C3_values_build (d : Dialect) (v : Values) (b : BuilderState) :
    (0 < v.columns.length →
       Values.build d v b
         = { sql := b.sql ++ "(" ++ sepJoin "," (v.columns.map d.quoteCol)
                 ++ ") VALUES " ++ sepJoin "," (v.values.map (tupleStr d)),
             vars := b.vars ++ v.values.flatten })
    ∧ (v.columns.length = 0 →
       Values.build d v b = { sql := b.sql ++ "DEFAULT VALUES", vars := b.vars }) := by
  constructor
  · intro h
    simp [Values.build, h, writeByte, writeString, writeColumns_true, writeTuples_true,
      singleton_lparen, singleton_rparen, String.append_assoc, fold_rparen_values]
  · intro h
    simp [Values.build, h, writeString]

/-- C3 (witness): the two branches at concrete clauses. -/
theorem C3_values_build_witness :
    Values.build sqlDialect valuesSample {}
      = { sql := "(\"name\",\"age\") VALUES (?,?),(?,?)",
          vars := [.str "ada", .int 1, .str "bob", .int 2] }
    ∧ Values.build sqlDialect {} { sql := "INSERT INTO t " }
      = { sql := "INSERT INTO t DEFAULT VALUES", vars := [] } := by
  constructor
  · have h := (C3_values_build sqlDialect valuesSample {}).1 (by decide)
    rw [h]; rfl
  · have h := (C3_values_build sqlDialect {} { sql := "INSERT INTO t " }).2 rfl
    rw [h]; rfl

/-- C4: merging a Select whose expression is non-nil stores that expression in
the clause (overriding any column list); when `Distinct` is set and the
expression is a raw `Expr` its SQL is prefixed with `"DISTINCT "`; building a
Select with a non-empty column list emits the comma-separated quoted columns,
prefixed with `"DISTINCT "` exactly when `Distinct` is set; building with no
columns emits `"*"`. -/
theorem C4_select_merge_and_build (d : Dialect) (s : Select) (c : Clause) (b : BuilderState) :
    (∀ sql vars, s.expression = some (.expr sql vars) → s.distinct = true →
       (s.mergeClause c).expression = some (.expr ("DISTINCT " ++ sql) vars))
    ∧ (∀ e, s.expression = some e →
       (s.distinct = false ∨ ∀ sql vars, e ≠ .expr sql vars) →
       (s.mergeClause c).expression = some e)
    ∧ (0 < s.columns.length →
       Select.build d s b
         = { sql := b.sql ++ (if s.distinct then "DISTINCT " else "")
                 ++ sepJoin "," (s.columns.map d.quoteCol),
             vars := b.vars })
    ∧ (s.columns.length = 0 →
       Select.build d s b = { sql := b.sql ++ "*", vars := b.vars }) := by
  refine ⟨fun sql vars he hd => ?_, fun e he hcase => ?_, fun h => ?_, fun h => ?_⟩
  · simp [Select.mergeClause, he, hd]
  · rcases hcase with hd | hne
    · cases e <;> simp [Select.mergeClause, he, hd]
    · cases e <;> simp [Select.mergeClause, he]
      case expr sql vars => exact absurd rfl (hne sql vars)
  · cases hd : s.distinct <;>
      simp [Select.build, h, hd, writeColumns_true, writeString, String.append_assoc]
  · simp [Select.build, h, writeByte, writeString, singleton_star]

/-- C4 (witness): the distinct-raw-expression merge and the distinct column
build at concrete inputs. -/
theorem C4_select_merge_and_build_witness :
    (selectExprSample.mergeClause {}).expression = some (.expr "DISTINCT count(1)" [])
    ∧ Select.build sqlDialect selectColsSample {}
      = { sql := "DISTINCT \"id\",\"name\"", vars := [] } := by
  constructor
  · exact (C4_select_merge_and_build sqlDialect selectExprSample {} {}).1 "count(1)" [] rfl rfl
  · have h := (C4_select_merge_and_build sqlDialect selectColsSample {} {}).2.2.1 (by decide)
    rw [h]; rfl

/-- C9: a Select with `Distinct` set but no columns and no expression builds
to exactly `"*"`: the `DISTINCT` keyword is written only inside the
non-empty-columns branch of `Select.Build`. -/
theorem C9_distinct_without_columns_builds_star (d : Dialect) (b : BuilderState) :
    Select.build d { distinct := true } b = { sql := b.sql ++ "*", vars := b.vars } := by
  simp [Select.build, writeByte, writeString, singleton_star]

end GormModel

namespace GormModel

/-- C7: `AddError` with a nil error leaves the error field unchanged and
returns it; with a non-nil error it sets the field when it was nil, and
otherwise chains the two errors — the old error rendered into the message
first and the most recent error the unwrappable (`%w`-wrapped) component —
returning the resulting error field.  (Stated with error translation off, as
the claim does not involve the dialector's translator.) -/
theorem C7_addError_accumulates (tr : GoError → GoError) (db : DB) (e : GoError)
    (htr : db.config.translateError = false) :
    DB.addError tr db none = (db, db.error)
    ∧ (db.error = none →
        DB.addError tr db (some e) = ({ db with error := some e }, some e))
    ∧ (∀ old, db.error = some old →
        (DB.addError tr db (some e)).1.error = some (.chain old e)
        ∧ (DB.addError tr db (some e)).2 = some (.chain old e)
        ∧ (GoError.chain old e).unwrap = some e
        ∧ (GoError.chain old e).msg = old.msg ++ "; " ++ e.msg) := by
  refine ⟨rfl, fun h0 => ?_, fun old hold => ?_⟩
  · simp [DB.addError, htr, h0]
  · simp [DB.addError, htr, hold, GoError.unwrap, GoError.msg, String.append_assoc]

/-- C7 (witness): accumulating a second error onto a DB that already holds
one. -/
theorem C7_addError_accumulates_witness :
    (DB.addError id { error := some (.base 1) } (some (.base 2))).1.error
      = some (.chain (.base 1) (.base 2))
    ∧ (GoError.chain (.base 1) (.base 2)).unwrap = some (.base 2)
    ∧ DB.addError id ({} : DB) none = ({}, none) := by
  refine ⟨?_, ?_, ?_⟩
  · exact ((C7_addError_accumulates id { error := some (.base 1) } (.base 2) rfl).2.2
      (.base 1) rfl).1
  · exact ((C7_addError_accumulates id { error := some (.base 1) } (.base 2) rfl).2.2
      (.base 1) rfl).2.2.1
  · exact (C7_addError_accumulates id {} (.base 7) rfl).1

/-- C2: with `SkipDefaultTransaction` false and the started-transaction
instance marker set, `CommitOrRollbackTransaction` rolls back when the DB
error is non-nil and commits when it is nil, in both cases restoring the
statement's connection pool to the DB's pool; with the marker unset or
`SkipDefaultTransaction` true it changes nothing. -/
theorem C2_commit_or_rollback (db : TxDB) :
    (db.skipDefaultTransaction = false → db.startedTransaction = true →
       (db.error.isSome = true →
          commitOrRollbackTransaction db
            = { db with txLog := db.txLog ++ [.rollbackTx], stmtConnPool := db.connPool })
       ∧ (db.error = none →
          commitOrRollbackTransaction db
            = { db with txLog := db.txLog ++ [.commitTx], stmtConnPool := db.connPool }))
    ∧ (db.skipDefaultTransaction = true → commitOrRollbackTransaction db = db)
    ∧ (db.startedTransaction = false → commitOrRollbackTransaction db = db) := by
  refine ⟨fun hskip hstart => ⟨fun herr => ?_, fun herr => ?_⟩,
    fun hskip => ?_, fun hstart => ?_⟩
  · simp [commitOrRollbackTransaction, hskip, hstart, herr, TxDB.rollback]
  · simp [commitOrRollbackTransaction, hskip, hstart, herr, TxDB.commit]
  · simp [commitOrRollbackTransaction, hskip]
  · cases hskip : db.skipDefaultTransaction <;>
      simp [commitOrRollbackTransaction, hskip, hstart]

/-- C2 (witness): rollback on error, commit on success, both restoring the
pool; a skipping DB untouched. -/
theorem C2_commit_or_rollback_witness :
    commitOrRollbackTransaction failedTxDB
      = { failedTxDB with txLog := [.rollbackTx], stmtConnPool := .raw 0 }
    ∧ commitOrRollbackTransaction happyTxDB
      = { happyTxDB with txLog := [.commitTx], stmtConnPool := .raw 0 }
    ∧ commitOrRollbackTransaction { failedTxDB with skipDefaultTransaction := true }
      = { failedTxDB with skipDefaultTransaction := true } := by
  refine ⟨?_, ?_, ?_⟩
  · exact ((C2_commit_or_rollback failedTxDB).1 rfl rfl).1 rfl
  · exact ((C2_commit_or_rollback happyTxDB).1 rfl rfl).2 rfl
  · exact (C2_commit_or_rollback { failedTxDB with skipDefaultTransaction := true }).2.1 rfl

/-- C10: the after-query handler invokes `AfterFind` exactly when no error is
set, a schema with the hook is present, hooks are not skipped, and at least
one row was affected; in particular a query that matched zero rows leaves
the DB untouched. -/
theorem C10_afterFind_gating (hookErr : Option GoError) (db : QueryDB)
    (hcalled : db.afterFindCalled = false) :
    ((afterQuery hookErr db).afterFindCalled = true ↔
       db.error = none ∧ db.schema.isSome = true ∧ db.skipHooks = false
       ∧ schemaAfterFind db.schema = true ∧ 0 < db.rowsAffected)
    ∧ (db.rowsAffected ≤ 0 → afterQuery hookErr db = db) := by
  constructor
  · by_cases hc : db.error = none ∧ db.schema.isSome = true ∧ db.skipHooks = false
        ∧ schemaAfterFind db.schema = true ∧ 0 < db.rowsAffected
    · simp [afterQuery, hc]
    · rw [afterQuery, if_neg hc, hcalled]
      exact iff_of_false (by simp) hc
  · intro hle
    rw [afterQuery, if_neg]
    intro hc
    exact absurd hc.2.2.2.2 (not_lt.2 hle)

/-- C10 (witness): the hook fires on a three-row result and a zero-row query
is a no-op. -/
theorem C10_afterFind_gating_witness :
    (afterQuery none foundQueryDB).afterFindCalled = true
    ∧ afterQuery none { foundQueryDB with rowsAffected := 0 }
      = { foundQueryDB with rowsAffected := 0 } := by
  constructor
  · exact ((C10_afterFind_gating none foundQueryDB rfl).1).2
      ⟨rfl, rfl, rfl, rfl, by decide⟩
  · exact (C10_afterFind_gating none { foundQueryDB with rowsAffected := 0 } rfl).2 le_rfl

end GormModel

namespace GormModel

theorem lookupClause_setClause_self (cls : List (String × Clause)) (name : String) (c : Clause) :
    lookupClause (setClause cls name c) name = some c := by
  induction cls with
  | nil => simp [setClause, lookupClause]
  | cons kc rest ih =>
      by_cases h : kc.1 = name <;> simp [setClause, lookupClause, h, ih]

theorem primaryCondsFold (g : PrimaryField → Expression) (fs : List PrimaryField)
    (acc : List Expression) :
    fs.foldl (fun conds f => if f.isZero then conds else conds ++ [g f]) acc
      = acc ++ (fs.filter (fun f => !f.isZero)).map g := by
  induction fs generalizing acc with
  | nil => simp
  | cons f fs ih =>
      cases hz : f.isZero <;> simp [ih, hz, List.append_assoc]

/-- C5: during query SQL construction, when the destination is a single
struct of the model schema's type, one equality conjunct per primary field
with a non-zero destination value is added to the WHERE clause (in field
order, against the statement's table); when every primary field is zero,
nothing is added. -/
theorem C5_primary_key_where (db : DB) (sch : Schema)
    (hsch : db.statement.schema = some sch)
    (hkind : db.statement.reflectKind = .struct)
    (htype : db.statement.reflectType = sch.modelType)
    (hnowhere : lookupClause db.statement.clauses "WHERE" = none) :
    ((sch.primaryFields.filter (fun f => !f.isZero)) ≠ [] →
       lookupClause (buildQueryPrimaryWhere db).statement.clauses "WHERE"
         = some { name := "WHERE",
                  expression := some (.whereExprs
                    ((sch.primaryFields.filter (fun f => !f.isZero)).map
                      (fun f => Expression.eq
                        { table := db.statement.table, name := f.dbName } (.val f.value)))) })
    ∧ ((sch.primaryFields.filter (fun f => !f.isZero)) = [] →
       buildQueryPrimaryWhere db = db) := by
  constructor
  · intro hne
    simp only [buildQueryPrimaryWhere, hsch]
    rw [if_pos ⟨hkind, htype⟩]
    simp only [primaryCondsFold, List.nil_append]
    rw [if_pos (by simp only [List.length_map]; exact List.length_pos.mpr hne)]
    simp only [Statement.addClause, whereInterface, hnowhere]
    exact lookupClause_setClause_self ..
  · intro hzero
    simp only [buildQueryPrimaryWhere, hsch]
    rw [if_pos ⟨hkind, htype⟩]
    simp [primaryCondsFold, hzero]

/-- C5 (witness): one non-zero primary field yields exactly one equality
conjunct in the installed WHERE clause. -/
theorem C5_primary_key_where_witness :
    lookupClause (buildQueryPrimaryWhere primaryQueryDB).statement.clauses "WHERE"
      = some { name := "WHERE",
               expression := some (.whereExprs
                 [.eq { table := "users", name := "id" } (.val (.int 7))]) } := by
  have h := (C5_primary_key_where primaryQueryDB
      { modelType := 1,
        primaryFields :=
          [{ dbName := "id", value := .int 7, isZero := false },
           { dbName := "tenant", value := .int 0, isZero := true }] }
      rfl rfl rfl rfl).1 (by decide)
  rw [h]; rfl

end GormModel

namespace GormModel

theorem processRelations_count (joinType : String) (rels : List Relationship)
    (parentTableName : String) (seen : Finset String) (joins : List JoinClause) :
    (processRelations joinType rels parentTableName seen joins).2.length + seen.card
      = joins.length + (processRelations joinType rels parentTableName seen joins).1.card
    ∧ seen ⊆ (processRelations joinType rels parentTableName seen joins).1 := by
  induction rels generalizing parentTableName seen joins with
  | nil => exact ⟨rfl, Finset.Subset.refl seen⟩
  | cons rel rels ih =>
      by_cases h : nestedRelationName parentTableName rel.name ∈ seen
      · simpa [processRelations, h] using
          ih (nextParentTableName parentTableName rel) seen joins
      · have step := ih (nextParentTableName parentTableName rel)
          (insert (nestedRelationName parentTableName rel.name) seen)
          (joins ++ [genJoinClause joinType parentTableName rel])
        constructor
        · have step1 := step.1
          rw [Finset.card_insert_of_not_mem h] at step1
          simp only [List.length_append, List.length_cons, List.length_nil] at step1
          simp only [processRelations, if_neg h]
          omega
        · simp only [processRelations, if_neg h]
          exact (Finset.subset_insert _ seen).trans step.2

theorem processJoinPathsAux_count (paths : List (String × List Relationship))
    (seen : Finset String) (joins : List JoinClause) :
    (processJoinPathsAux paths seen joins).2.length + seen.card
      = joins.length + (processJoinPathsAux paths seen joins).1.card := by
  induction paths generalizing seen joins with
  | nil => rfl
  | cons p paths ih =>
      obtain ⟨joinType, rels⟩ := p
      have hstep := (processRelations_count joinType rels currentTable seen joins).1
      have hrest := ih (processRelations joinType rels currentTable seen joins).1
        (processRelations joinType rels currentTable seen joins).2
      simp only [processJoinPathsAux]
      omega

/-- C6: the relation-path loop of `BuildQuerySQL` deduplicates joins by
nested alias: every emitted join is paid for by a distinct alias newly added
to `specifiedRelationsName` (so the number of joins in the FROM clause equals
the number of distinct aliases recorded, starting from an empty set), and a
path step whose generated nested alias was already recorded emits no join at
all. -/
theorem C6_nested_alias_join_dedup :
    (∀ joinType rels parentTableName seen joins,
       (processRelations joinType rels parentTableName seen joins).2.length + seen.card
         = joins.length + (processRelations joinType rels parentTableName seen joins).1.card
       ∧ seen ⊆ (processRelations joinType rels parentTableName seen joins).1)
    ∧ (∀ joinType rel rels parentTableName seen joins,
       nestedRelationName parentTableName rel.name ∈ seen →
       processRelations joinType (rel :: rels) parentTableName seen joins
         = processRelations joinType rels (nextParentTableName parentTableName rel) seen joins)
    ∧ ∀ paths, (processJoinPaths paths).2.length = (processJoinPaths paths).1.card := by
  refine ⟨processRelations_count,
    fun joinType rel rels parentTableName seen joins h => ?_, fun paths => ?_⟩
  · simp [processRelations, h]
  · have h := processJoinPathsAux_count paths ∅ []
    simpa [processJoinPaths] using h

/-- C6 (witness): joining `Manager` and then the nested `Manager.Company`
path emits two joins for two distinct aliases — the revisited `Manager`
alias is skipped. -/
theorem C6_nested_alias_join_dedup_witness :
    (processJoinPaths joinPathsSample).2.length = (processJoinPaths joinPathsSample).1.card
    ∧ processRelations "LEFT" [relManager] currentTable
        {nestedRelationName currentTable "Manager"} []
      = processRelations "LEFT" [] (nextParentTableName currentTable relManager)
        {nestedRelationName currentTable "Manager"} []
    ∧ (processJoinPaths joinPathsSample).2.length = 2 := by
  refine ⟨C6_nested_alias_join_dedup.2.2 joinPathsSample,
    C6_nested_alias_join_dedup.2.1 "LEFT" relManager [] currentTable _ [] (by simp [relManager]), ?_⟩
  rfl

end GormModel

namespace GormModel

/-- C8 (counterexample): the claim says `ToSQL` returns the same SQL text
the non-dry-run pipeline would have sent to the driver, but the pipeline
sends the placeholder text (with the vars alongside) while `ToSQL` returns
`Explain`'s rendering with literals substituted: on a one-variable statement
the two strings differ. -/
theorem C8_toSQL_differs_from_driver_text :
    querySend false whereIdStmt = some ("SELECT * FROM users WHERE id = ?", [.int 1])
    ∧ toSQL whereIdStmt = "SELECT * FROM users WHERE id = 1"
    ∧ toSQL whereIdStmt ≠ "SELECT * FROM users WHERE id = ?" := by
  refine ⟨rfl, by decide, by decide⟩

/-- C8 (amended): `ToSQL` runs the query function on a session whose config
has `DryRun` set, in which the query handler performs no execution, and
returns the dialector's `Explain` rendering — literals substituted for
placeholders — of exactly the SQL text and bind variables the non-dry-run
pipeline would have sent to the driver for the same built statement. -/
theorem C8_toSQL_explains_driver_text (db : DB) (stmt : BuiltStmt) :
    (db.session toSQLSession).config.dryRun = true
    ∧ querySend (db.session toSQLSession).config.dryRun stmt = none
    ∧ (∀ s vs, querySend false stmt = some (s, vs) → toSQL stmt = explain s vs) := by
  have hdry : (db.session toSQLSession).config.dryRun = true := by
    simp [DB.session, toSQLSession]
  refine ⟨hdry, ?_, ?_⟩
  · rw [hdry]; rfl
  · intro s vs h
    simp only [querySend, if_neg (Bool.false_ne_true), Option.some.injEq, Prod.mk.injEq] at h
    rw [toSQL, h.1, h.2]

/-- C8 (witness): the amended equivalence at the concrete one-variable
statement. -/
theorem C8_toSQL_explains_driver_text_witness :
    (sampleDB.session toSQLSession).config.dryRun = true
    ∧ toSQL whereIdStmt = explain "SELECT * FROM users WHERE id = ?" [.int 1] :=
  ⟨(C8_toSQL_explains_driver_text sampleDB whereIdStmt).1,
   (C8_toSQL_explains_driver_text sampleDB whereIdStmt).2.2 _ _ rfl⟩

end GormModel
